import Mathlib

/-!
Verification of the SleepSync pediatric sleep-schedule calculator
(`src/PediatricSleepApp.tsx`).

The source file contains two complete, near-duplicate copies of the app,
separated by a document marker at line 724.  We embed both derivation
engines: namespace `ImplA` models the first copy (lines 1-724) and
namespace `ImplB` the second copy (lines 724-1506).  The time-arithmetic
helpers (`timeToMinutes`, `minutesToTime`, `addMinutes`, `getDuration`,
`calculateInterpolatedWakeWindow`) are textually identical in the two
copies and are defined once, outside the namespaces.

Modelling conventions:
* JavaScript numbers are modelled as `Int` where the program only ever
  holds integers (minute counts, durations), and as `ℚ` where fractional
  intermediate values occur (interpolation progress, the `0.8`/`0.85`/`0.9`
  factors, `x/60*10` displays).  `Math.round` is `round : ℚ → ℤ`
  (both round halves up: `Math.round x = ⌊x + 0.5⌋` and
  `round x = ⌊x + 1/2⌋`).
* JS `%` on integers is truncated remainder (`Int.tmod`); `Math.floor`
  of a quotient of integers is `Int.fdiv`.
* `String.prototype.padStart(2, '0')` is `pad2`; template literals become
  explicit string concatenation; `Number()` applied to the digit substrings
  produced by `split(':')` is `jsNumber` (non-digit input, which the app
  never produces, is outside the model and mapped to 0 — JS would give NaN).
* JS `Array.prototype.sort` (stable, comparator `a - b` on the start-time
  key) is modelled by the stable `List.insertionSort` on the
  key-`≤` relation.
-/

/-- Event kinds of a `PlannedEvent` (source: the `type` union
`'wake' | 'nap' | 'bedtime'`). -/
inductive EventType where
  | wake
  | nap
  | bedtime
deriving DecidableEq, Repr

/-- Severity levels (source: `'normal' | 'warning' | 'critical'`). -/
inductive Alert where
  | normal
  | warning
  | critical
deriving DecidableEq, Repr

/-- Scheduling mode of an age band (source: `'window' | 'hybrid' | 'clock'`). -/
inductive Mode where
  | window
  | hybrid
  | clock
deriving DecidableEq, Repr

/-- The age-band knowledge record (source interface `SleepStandard`). -/
structure SleepStandard where
  minWake : Int
  maxWake : Int
  naps : Nat
  label : String
  mode : Mode
  bedtimeWindow : Int
  description : String
  rangeStart : Int
  rangeEnd : Int
  tooLongNapMinutes : Int
  latestNapEndTime : String
  idealBedtime : String
deriving DecidableEq, Repr

/-- An observed daytime-sleep record (source interface `NapEntry`). -/
structure NapEntry where
  id : String
  startTime : String
  endTime : String
  duration : Int
deriving DecidableEq, Repr

/-- One output event of the deriver (source interface `PlannedEvent`);
`alertLevel` is optional in the source and therefore an `Option` here. -/
structure PlannedEvent where
  type : EventType
  startTime : String
  endTime : Option String := none
  title : String
  description : String
  reasoning : String
  isPrediction : Bool
  alertLevel : Option Alert := none
deriving DecidableEq, Repr

/-- Keys of the `SLEEP_STANDARDS` table (source type `AgeGroupKey`). -/
inductive AgeGroupKey where
  | k0_3
  | k4_6
  | k7_12
  | k13_18
  | k19_36
  | k36plus
deriving DecidableEq, Repr

-- --- TIME ARITHMETIC HELPERS (identical in both copies) ---

/-- JS `s.padStart(2, '0')`: prepend zeros until the length reaches 2. -/
def pad2 (s : String) : String :=
  if 2 ≤ s.length then s else if s.length = 1 then "0" ++ s else "00" ++ s

/-- JS `String.prototype.split` with a single-character separator, on the
character list of the string: `"a:b".split(':') = ["a","b"]`,
`"".split(':') = [""]`. -/
def splitOnChar (c : Char) : List Char → List (List Char)
  | [] => [[]]
  | a :: t =>
    if a = c then [] :: splitOnChar c t
    else
      match splitOnChar c t with
      | [] => [[a]]
      | h :: r => (a :: h) :: r

/-- Models JS `Number()` on the non-empty decimal-digit strings produced by
splitting a well-formed `"HH:MM"` value; other inputs (where JS would
produce `NaN`) are outside the model and mapped to 0. -/
def jsNumber (l : List Char) : Int :=
  if l ≠ [] ∧ l.all (·.isDigit) then
    (l.foldl (fun acc c => acc * 10 + (c.toNat - 48)) 0 : Nat)
  else 0

/-- Source `timeToMinutes` (lines 102-106 and 880-884): parse `"HH:MM"`
into minutes since midnight; empty input yields 0.  Input without a `':'`
(JS: `NaN`) is outside the model and mapped to 0. -/
def timeToMinutes (time : String) : Int :=
  if time = "" then 0
  else
    match splitOnChar ':' time.data with
    | h :: m :: _ => jsNumber h * 60 + jsNumber m
    | _ => 0

/-- Source `minutesToTime` (lines 108-114 and 886-892).  JS
`Math.floor(minutes / 60)` is `Int.fdiv`, JS `minutes % 60` is `Int.tmod`
(and `Math.floor` of that integer is the identity). -/
def minutesToTime (minutes : Int) : String :=
  let h0 := minutes.fdiv 60
  let m0 := minutes.tmod 60
  let h1 := if 24 ≤ h0 then h0 - 24 else h0
  let h2 := if h1 < 0 then h1 + 24 else h1
  pad2 (toString h2) ++ ":" ++ pad2 (toString m0)

/-- Source `addMinutes` (lines 116-118 and 894-896). -/
def addMinutes (time : String) (mins : Int) : String :=
  minutesToTime (timeToMinutes time + mins)

/-- Source `getDuration` (lines 120-124 and 898-902). -/
def getDuration (start finish : String) : Int :=
  let diff := timeToMinutes finish - timeToMinutes start
  if diff < 0 then diff + 1440 else diff

/-- Source `calculateInterpolatedWakeWindow` (lines 135-139 and 913-917);
JS float arithmetic on the progress fraction is modelled exactly in `ℚ`. -/
def calculateInterpolatedWakeWindow (month : ℚ) (std : SleepStandard) : Int :=
  if std.rangeStart = std.rangeEnd then std.maxWake
  else
    let progress := (month - (std.rangeStart : ℚ)) / ((std.rangeEnd : ℚ) - (std.rangeStart : ℚ))
    round ((std.minWake : ℚ) + ((std.maxWake : ℚ) - (std.minWake : ℚ)) * progress)

/-- Source `isLater` (line 141, first copy only). -/
def isLater (a b : String) : Bool :=
  decide (timeToMinutes b < timeToMinutes a)

/-- Substring test on character lists, for JS `String.prototype.includes`. -/
def containsSub (s pat : List Char) : Bool :=
  pat.isPrefixOf s ||
    match s with
    | [] => false
    | _ :: t => containsSub t pat

/-- JS `s.includes(pat)`. -/
def jsIncludes (s pat : String) : Bool :=
  containsSub s.data pat.data

/-- Renders `Math.round(x * 10) / 10` the way JS string interpolation
prints it, given the integer number of tenths: `53 ↦ "5.3"`, `60 ↦ "6"`.
Only ever used on non-negative values. -/
def tenthsToString (t : Int) : String :=
  if t.tmod 10 = 0 then toString (t.tdiv 10)
  else toString (t.tdiv 10) ++ "." ++ toString ((t.tmod 10).natAbs)

/-- Start-time key order used by the nap-list sort: the JS comparator is
`timeToMinutes(a.startTime) - timeToMinutes(b.startTime)`. -/
def napLE (a b : NapEntry) : Prop :=
  timeToMinutes a.startTime ≤ timeToMinutes b.startTime

instance : DecidableRel napLE := fun a b =>
  inferInstanceAs (Decidable (timeToMinutes a.startTime ≤ timeToMinutes b.startTime))

instance : IsTotal NapEntry napLE :=
  ⟨fun a b => le_total (timeToMinutes a.startTime) (timeToMinutes b.startTime)⟩

instance : IsTrans NapEntry napLE :=
  ⟨fun _ _ _ h1 h2 => le_trans h1 h2⟩

/-- Source `addNap` (lines 368-377 and 1134-1143), as the pure list edit it
performs: blank start or end is a no-op; otherwise the new entry (whose
`id` the caller supplies — in the source it is `Date.now().toString()`)
is appended and the whole list re-sorted by start time, JS `Array#sort`
being modelled by the stable `insertionSort`. -/
def addNap (naps : List NapEntry) (id napStart napEnd : String) : List NapEntry :=
  if napStart = "" || napEnd = "" then naps
  else
    let duration := getDuration napStart napEnd
    List.insertionSort napLE
      (naps ++ [{ id := id, startTime := napStart, endTime := napEnd, duration := duration }])

-- --- FIRST COPY OF THE APP (source lines 1-724) ---

namespace ImplA

/-- Table `SLEEP_STANDARDS` of the first copy (source lines 49-98). -/
def SLEEP_STANDARDS : AgeGroupKey → SleepStandard
  | .k0_3 =>
    { rangeStart := 0, rangeEnd := 3, minWake := 45, maxWake := 90
      naps := 4, label := "Neugeborenes (0–3 Monate)", mode := .window
      bedtimeWindow := 90
      description := "Kein Tag-Nacht-Rhythmus. Schlafdruck baut sich extrem schnell auf."
      tooLongNapMinutes := 120, latestNapEndTime := "18:00", idealBedtime := "20:00" }
  | .k4_6 =>
    { rangeStart := 4, rangeEnd := 6, minWake := 90, maxWake := 150
      naps := 3, label := "Säugling (4–6 Monate)", mode := .window
      bedtimeWindow := 150
      description := "Schlaf wird zyklisch. Wachfenster steuern den Tag."
      tooLongNapMinutes := 120, latestNapEndTime := "17:30", idealBedtime := "19:30" }
  | .k7_12 =>
    { rangeStart := 7, rangeEnd := 12, minWake := 150, maxWake := 210
      naps := 2, label := "Baby (7–12 Monate)", mode := .hybrid
      bedtimeWindow := 210
      description := "Übergang zu 2 Naps. Letztes Wachfenster ist das längste."
      tooLongNapMinutes := 120, latestNapEndTime := "16:30", idealBedtime := "19:30" }
  | .k13_18 =>
    { rangeStart := 13, rangeEnd := 18, minWake := 240, maxWake := 300
      naps := 1, label := "Kleinkind (13–18 Monate)", mode := .hybrid
      bedtimeWindow := 270
      description := "Umstellung auf einen Mittagsschlaf. Mittagsschlaf sollte mittig liegen."
      tooLongNapMinutes := 150, latestNapEndTime := "15:00", idealBedtime := "19:30" }
  | .k19_36 =>
    { rangeStart := 19, rangeEnd := 36, minWake := 300, maxWake := 360
      naps := 1, label := "Kleinkind (2–3 Jahre)", mode := .clock
      bedtimeWindow := 360
      description := "Strategie: Bei frühem Erwachen Nap vorziehen & begrenzen, um Nachtschlaf zu verlängern."
      tooLongNapMinutes := 120, latestNapEndTime := "15:00", idealBedtime := "19:30" }
  | .k36plus =>
    { rangeStart := 37, rangeEnd := 60, minWake := 360, maxWake := 720
      naps := 0, label := "Vorschulkind (3–5 Jahre)", mode := .clock
      bedtimeWindow := 720
      description := "Mittagsschlaf entfällt meist. Ruhezeit statt Schlaf."
      tooLongNapMinutes := 60, latestNapEndTime := "14:30", idealBedtime := "20:00" }

/-- Source `getStandardByMonth` (lines 126-133). -/
def getStandardByMonth (month : Int) : SleepStandard :=
  if month ≤ 3 then SLEEP_STANDARDS .k0_3
  else if month ≤ 6 then SLEEP_STANDARDS .k4_6
  else if month ≤ 12 then SLEEP_STANDARDS .k7_12
  else if month ≤ 18 then SLEEP_STANDARDS .k13_18
  else if month ≤ 36 then SLEEP_STANDARDS .k19_36
  else SLEEP_STANDARDS .k36plus

/-- The `DerivationResult` of the first copy: the value returned by its
`scheduleData` memo (line 365): events, warnings and the resolved band. -/
structure DerivationResult where
  events : List PlannedEvent
  warnings : List String
  standard : SleepStandard
deriving DecidableEq, Repr

/-- One already-observed nap rendered as an event (source lines 184-211,
body of the `naps.forEach`). -/
def observedNapEvent (std : SleepStandard) (index : Nat) (nap : NapEntry) : PlannedEvent :=
  let isCrapNap := nap.duration < 45
  let isTooLong := std.tooLongNapMinutes < nap.duration
  { type := .nap
    startTime := nap.startTime
    endTime := some nap.endTime
    title := "Nickerchen " ++ toString (index + 1) ++ " (Ist)"
    description := toString nap.duration ++ " min."
    reasoning :=
      if isCrapNap then
        "Kurzer Nap baut Schlafdruck nur unvollständig ab. Nächstes Wachfenster verkürzen."
      else if isTooLong then
        "Zu langer Nap \"stiehlt\" Schlafdruck für die Nacht."
      else "Gute Erholung."
    isPrediction := false
    alertLevel := some (if isCrapNap then .warning else if isTooLong then .warning else .normal) }

/-- All observed naps, in list order, as events. -/
def observedEvents (std : SleepStandard) (naps : List NapEntry) : List PlannedEvent :=
  naps.enum.map fun p => observedNapEvent std p.1 p.2

/-- The per-slot data computed by the branching part of the prediction loop
(source lines 232-279): predicted start, duration, title, description,
reasoning, alert level, and the warnings pushed by the branch. -/
structure SlotInfo where
  start : String
  dur : Int
  title : String
  desc : String
  reason : String
  alert : Alert
  warns : List String
deriving DecidableEq, Repr

/-- The branch of one prediction-loop iteration (source lines 240-279):
either the toddler clock/capping logic or the standard wake-window logic. -/
def napSlotInfo (std : SleepStandard) (isToddler : Bool) (napsPlanned napNumber : Nat)
    (currentTime : String) (nextWakeWindow : Int) : SlotInfo :=
  if isToddler && std.naps == 1 && napsPlanned == 0 then
    let idealClockNap := timeToMinutes "12:30"
    let physiologicalMaxNap := timeToMinutes currentTime + std.maxWake
    if physiologicalMaxNap < idealClockNap - 30 then
      let predictedNapStart := minutesToTime physiologicalMaxNap
      let wakeUpTime := addMinutes predictedNapStart 75
      { start := predictedNapStart, dur := 75
        title := "Strategischer Mittagsschlaf (Capping)"
        desc := "Start: " ++ predictedNapStart ++ " | Wecken um: " ++ wakeUpTime
        reason := "Kompromisszeit 11:00 Uhr. WICHTIG: Nach 75 Min (" ++ wakeUpTime ++
          ") wecken! Das sichert genug Schlafdruck für eine Bettzeit um 18:15 Uhr."
        alert := .warning
        warns := ["WICHTIG: Mittagsschlaf nach 75 Minuten beenden (Wecken), damit die Bettzeit heute Abend passt."] }
    else
      let physiologicalMinNap := timeToMinutes currentTime + std.minWake
      let target := max physiologicalMinNap idealClockNap
      let finalStart := min target physiologicalMaxNap
      let predictedNapStart := minutesToTime finalStart
      { start := predictedNapStart, dur := 90
        title := "Vorschlag: Nap " ++ toString napNumber
        desc := "Zielzeit ca. " ++ predictedNapStart ++ ". Dauer: 90 Min."
        reason := "Standard-Mittagsschlafzeit passend zum Wachfenster."
        alert := .normal
        warns := [] }
  else
    let predictedNapStart := addMinutes currentTime nextWakeWindow
    let predictedDuration : Int := if 1 < std.naps ∧ napNumber = std.naps then 30 else 90
    let hoursWake := round ((nextWakeWindow : ℚ) / 60 * 10)
    { start := predictedNapStart, dur := predictedDuration
      title := "Vorschlag: Nap " ++ toString napNumber
      desc := "Dauer ca. " ++ toString predictedDuration ++ " Min."
      reason := "Basiert auf Wachfenster von ca. " ++ tenthsToString hoursWake ++ " Std."
      alert := .normal
      warns := [] }

/-- The tail of one prediction-loop iteration (source lines 281-298): the
late-nap-end check, which appends to the event's reasoning and escalates
its severity, and the `events.push`.  Returns the pushed event, the
warnings pushed by the branch, and the nap end (the new cursor). -/
def buildNapEvent (std : SleepStandard) (info : SlotInfo) :
    PlannedEvent × List String × String :=
  let predictedNapEnd := addMinutes info.start info.dur
  let lateCheck := !(std.latestNapEndTime == "") && isLater predictedNapEnd std.latestNapEndTime
  ({ type := .nap
     startTime := info.start
     endTime := some predictedNapEnd
     title := info.title
     description := info.desc
     reasoning :=
       if lateCheck then
         info.reason ++ " ACHTUNG: Nap endet sehr spät (" ++ predictedNapEnd ++ "). Gefahr für Bettzeit!"
       else info.reason
     isPrediction := true
     alertLevel := some (if lateCheck then Alert.warning else info.alert) },
   info.warns, predictedNapEnd)

/-- The prediction loop (source lines 229-302) as a recursion on the number
of remaining slots, threading the current-time cursor and the
wake-window in effect (which jumps to `std.maxWake` after each slot,
line 301).  Returns the predicted events, the warnings pushed, and the
final cursor. -/
def predictNaps (std : SleepStandard) (isToddler : Bool) (napsPlanned : Nat) :
    Nat → Nat → String → Int → List PlannedEvent × List String × String
  | 0, _, currentTime, _ => ([], [], currentTime)
  | r + 1, i, currentTime, nextWakeWindow =>
    let slot := buildNapEvent std
      (napSlotInfo std isToddler napsPlanned (napsPlanned + i + 1) currentTime nextWakeWindow)
    let rest := predictNaps std isToddler napsPlanned r (i + 1) slot.2.2 std.maxWake
    (slot.1 :: rest.1, slot.2.1 ++ rest.2.1, rest.2.2)

/-- The bedtime event (source lines 327-363): computed from the final
cursor, the (already capping/warning-adjusted) bedtime wake-window, and
the strategic-capping flag.  `bedtimeMins` is taken from the initially
computed bedtime, exactly as in the source. -/
def bedtimeEvent (currentTime : String) (finalWakeWindow : Int) (isStrategicCapping : Bool) :
    PlannedEvent :=
  let bedtime0 := addMinutes currentTime finalWakeWindow
  let bedtimeMins := timeToMinutes bedtime0
  let early := bedtimeMins < 1080
  let late := 1260 < bedtimeMins
  { type := .bedtime
    startTime := if isStrategicCapping then addMinutes currentTime 360 else bedtime0
    title :=
      if isStrategicCapping then "Ziel-Bettzeit"
      else if early then "Frühe Bettzeit"
      else if late then "Späte Bettzeit"
      else "Bettzeit"
    description :=
      if isStrategicCapping then "18:15 – 18:45 Uhr"
      else if early then "Ausgleich für frühen Start"
      else "Nachtruhe"
    reasoning :=
      if isStrategicCapping then
        "Nach dem Wecken um 12:15 Uhr benötigt das Kind ca. 5,5–6h Wachzeit. Ziel: Übermüdung vermeiden, aber Schlafdruck nutzen."
      else if early then "Wegen des frühen Morgens ist eine frühe Bettzeit nötig."
      else if late then "Wachfenster wurde sehr lang. Risiko, dass das Kind überdreht."
      else "Wachzeit vor Bett: " ++ tenthsToString (round ((finalWakeWindow : ℚ) / 60 * 10)) ++ " Std."
    isPrediction := true
    alertLevel := some
      (if isStrategicCapping then .warning
       else if early then .warning
       else if late then .critical
       else .normal) }

/-- The full derivation of the first copy (the pure computation of the
`scheduleData` memo, source lines 158-366), as a function of the three
inputs age in months, wake time and observed-nap list. -/
def deriveSchedule (ageMonths : Int) (wakeTime : String) (naps : List NapEntry) :
    DerivationResult :=
  let std := getStandardByMonth ageMonths
  let specificWakeWindow := calculateInterpolatedWakeWindow (ageMonths : ℚ) std
  let wakeEvent : PlannedEvent :=
    { type := .wake
      startTime := wakeTime
      title := "Tagesbeginn"
      description := "Start des Schlafdruck-Aufbaus."
      reasoning := "Licht und Frühstück helfen, die innere Uhr zu stellen."
      isPrediction := false }
  let warnings0 : List String :=
    if timeToMinutes wakeTime < 360 then
      ["Frühes Aufwachen (05:00): Strategie \"Nap Capping\" aktiviert, um Nachtschlaf zu verlängern."]
    else []
  let obsEvents := observedEvents std naps
  let currentTime0 := ((naps.getLast?).map NapEntry.endTime).getD wakeTime
  let napsPlanned := naps.length
  let remainingNaps := std.naps - napsPlanned
  let isToddler : Bool := decide (19 ≤ ageMonths ∧ ageMonths ≤ 36)
  let adjusted :=
    match naps.getLast? with
    | some lastNap =>
      if lastNap.duration < 45 then
        (round ((specificWakeWindow : ℚ) * (0.8 : ℚ)),
         ["Vorheriger Nap war kurz: Nächstes Wachfenster deutlich reduziert."])
      else (specificWakeWindow, ([] : List String))
    | none => (specificWakeWindow, ([] : List String))
  let predicted := predictNaps std isToddler napsPlanned remainingNaps 0 currentTime0 adjusted.1
  let preEvents := wakeEvent :: (obsEvents ++ predicted.1)
  let currentTime1 := predicted.2.2
  let finalWakeWindow0 :=
    if std.mode ≠ Mode.clock then
      round ((std.bedtimeWindow : ℚ) - 30 +
        60 * (((ageMonths : ℚ) - (std.rangeStart : ℚ)) / ((std.rangeEnd : ℚ) - (std.rangeStart : ℚ))))
    else std.bedtimeWindow
  let lastEv? := preEvents.getLast?
  let isStrategicCapping : Bool :=
    match lastEv? with
    | some ev => isToddler && ev.type == EventType.nap && jsIncludes ev.title "Capping"
    | none => false
  let finalWakeWindow1 :=
    if isStrategicCapping then 360
    else
      match lastEv? with
      | some ev =>
        if ev.type == EventType.nap && ev.alertLevel == some Alert.warning then
          round ((finalWakeWindow0 : ℚ) * (0.9 : ℚ))
        else finalWakeWindow0
      | none => finalWakeWindow0
  { events := preEvents ++ [bedtimeEvent currentTime1 finalWakeWindow1 isStrategicCapping]
    warnings := warnings0 ++ adjusted.2 ++ predicted.2.1
    standard := std }

end ImplA

-- --- SECOND COPY OF THE APP (source lines 724-1506) ---

namespace ImplB

/-- Table `SLEEP_STANDARDS` of the second copy (source lines 774-877); note the
different constants: `tooLongNapMinutes` 150 throughout (120 only for
`36+`), `minWake` 210 for 13-18, `bedtimeWindow` 330 for 19-36, and later
`latestNapEndTime` values. -/
def SLEEP_STANDARDS : AgeGroupKey → SleepStandard
  | .k0_3 =>
    { rangeStart := 0, rangeEnd := 3, minWake := 45, maxWake := 90
      naps := 4, label := "Neugeborenes (0–3 Monate)", mode := .window
      bedtimeWindow := 90
      description := "In dieser Phase besteht noch kein stabiler Tag-Nacht-Rhythmus. Der Schlafdruck steigt sehr rasch an, weshalb kurze Wachphasen und mehrere Schlafepisoden über den Tag verteilt physiologisch normal sind."
      tooLongNapMinutes := 150, latestNapEndTime := "18:00", idealBedtime := "20:00" }
  | .k4_6 =>
    { rangeStart := 4, rangeEnd := 6, minWake := 90, maxWake := 150
      naps := 3, label := "Säugling (4–6 Monate)", mode := .window
      bedtimeWindow := 150
      description := "Der Schlaf wird zunehmend zyklisch. Wachfenster sind der zentrale Steuerungsfaktor. Kürzere Nickerchen sind altersentsprechend und erfordern häufig ein früheres erneutes Schlafangebot."
      tooLongNapMinutes := 150, latestNapEndTime := "17:30", idealBedtime := "19:30" }
  | .k7_12 =>
    { rangeStart := 7, rangeEnd := 12, minWake := 150, maxWake := 210
      naps := 2, label := "Baby (7–12 Monate)", mode := .hybrid
      bedtimeWindow := 210
      description := "Der zirkadiane Rhythmus stabilisiert sich zunehmend. Der Übergang auf zwei Nickerchen erfolgt schrittweise. Die letzte Wachphase des Tages ist in der Regel die längste und besonders sensibel für Übermüdung."
      tooLongNapMinutes := 150, latestNapEndTime := "16:30", idealBedtime := "19:30" }
  | .k13_18 =>
    { rangeStart := 13, rangeEnd := 18, minWake := 210, maxWake := 300
      naps := 1, label := "Kleinkind (13–18 Monate)", mode := .hybrid
      bedtimeWindow := 270
      description := "Phase der Umstellung auf einen Mittagsschlaf. Ein zu früher Wechsel kann Übermüdung begünstigen und sich in frühem Erwachen, häufigem nächtlichem Aufwachen oder verkürztem Nachtschlaf zeigen."
      tooLongNapMinutes := 150, latestNapEndTime := "15:30", idealBedtime := "19:30" }
  | .k19_36 =>
    { rangeStart := 19, rangeEnd := 36, minWake := 300, maxWake := 360
      naps := 1, label := "Kleinkind (2–3 Jahre) — Schwerpunkt", mode := .clock
      bedtimeWindow := 330
      description := "Der Tagesrhythmus wird überwiegend durch feste Uhrzeiten geprägt. Zentrale Stellschrauben sind ein konsistenter Mittagsschlaf sowie das gezielte Begrenzen des Tagschlafs („Nap-Capping“), um eine altersgerechte Bettzeit zuverlässig zu sichern."
      tooLongNapMinutes := 150, latestNapEndTime := "15:30", idealBedtime := "19:30" }
  | .k36plus =>
    { rangeStart := 37, rangeEnd := 60, minWake := 360, maxWake := 720
      naps := 0, label := "Vorschulkind (3–5 Jahre)", mode := .clock
      bedtimeWindow := 720
      description := "Der Mittagsschlaf entfällt zunehmend. Eine verlässliche Tagesstruktur mit ruhiger Abendroutine und konstanter Bettzeit ist in diesem Alter meist wirksamer als ein erzwungener Tagschlaf."
      tooLongNapMinutes := 120, latestNapEndTime := "15:00", idealBedtime := "20:00" }

/-- Source `getStandardByMonth` of the second copy (lines 904-911). -/
def getStandardByMonth (month : Int) : SleepStandard :=
  if month ≤ 3 then SLEEP_STANDARDS .k0_3
  else if month ≤ 6 then SLEEP_STANDARDS .k4_6
  else if month ≤ 12 then SLEEP_STANDARDS .k7_12
  else if month ≤ 18 then SLEEP_STANDARDS .k13_18
  else if month ≤ 36 then SLEEP_STANDARDS .k19_36
  else SLEEP_STANDARDS .k36plus

/-- The value returned by the second copy's `scheduleData` memo
(line 1131): it additionally exposes `specificWakeWindow`. -/
structure DerivationResultB where
  events : List PlannedEvent
  warnings : List String
  standard : SleepStandard
  specificWakeWindow : Int
deriving DecidableEq, Repr

/-- One already-observed nap rendered as an event (source lines 967-1003). -/
def observedNapEvent (std : SleepStandard) (index : Nat) (nap : NapEntry) : PlannedEvent :=
  let isCrapNap := nap.duration < 45
  let isTooLong := std.tooLongNapMinutes < nap.duration
  { type := .nap
    startTime := nap.startTime
    endTime := some nap.endTime
    title := "Nickerchen " ++ toString (index + 1)
    description := toString nap.duration ++ " min." ++
      (if isCrapNap then " ⚠️ Kurz" else if isTooLong then " ⚠️ Sehr lang" else " ✅ Erholsam")
    reasoning :=
      if isCrapNap then
        "Kurzer Nap: Ein Schlafzyklus wurde vermutlich nicht vollendet. " ++
          "Der Schlafdruck wird nur teilweise abgebaut → nächstes Wachfenster eher kürzer planen."
      else if isTooLong then
        "Sehr langer Tagschlaf kann den Schlafdruck für die Nacht reduzieren (\"Sleep Pressure stealing\"). " ++
          "Das kann zu später Bettzeit, nächtlichem Wachsein oder frühem Erwachen führen."
      else
        "Gute Nap-Länge: Unterstützt Erholung und Stabilität, ohne den Nachtschlaf unnötig zu beeinträchtigen."
    isPrediction := false
    alertLevel := some (if isCrapNap then .warning else if isTooLong then .warning else .normal) }

/-- All observed naps as events. -/
def observedEvents (std : SleepStandard) (naps : List NapEntry) : List PlannedEvent :=
  naps.enum.map fun p => observedNapEvent std p.1 p.2

/-- The warnings pushed inside the observed-nap walk (source lines
1008-1010): a short nap that is not the last planned one. -/
def observedWarnings (std : SleepStandard) (naps : List NapEntry) : List String :=
  naps.enum.filterMap fun p =>
    if p.2.duration < 45 ∧ p.1 < std.naps - 1 then
      some ("Nap " ++ toString (p.1 + 1) ++ " war kurz. Nächstes Wachfenster etwas verkürzen.")
    else none

/-- One iteration of the second copy's prediction loop (source lines
1034-1083): clock-anchored start for a single-nap clock band, otherwise
wake-window based; the late-end check appends to the global warnings and
the pushed event carries no `alertLevel`.  Returns the event, the
warnings pushed, and the nap end (the new cursor). -/
def napSlot (std : SleepStandard) (isClockMode : Bool) (ageMonths : Int)
    (napsPlanned napNumber : Nat) (currentTime : String) (nextWakeWindow : Int) :
    PlannedEvent × List String × String :=
  let isLastNap := napNumber == std.naps
  let predictedNapStart :=
    if isClockMode && std.naps == 1 && napsPlanned == 0 then "12:30"
    else addMinutes currentTime nextWakeWindow
  let predictedDuration : Int := if (3 ≤ std.naps) ∧ isLastNap = true then 30 else 90
  let predictedNapEnd := addMinutes predictedNapStart predictedDuration
  let wakeHours := round ((nextWakeWindow : ℚ) / 60 * 10)
  let warns : List String :=
    if !(std.latestNapEndTime == "") &&
        decide (timeToMinutes std.latestNapEndTime < timeToMinutes predictedNapEnd) then
      ["Nap " ++ toString napNumber ++ " würde voraussichtlich sehr spät enden (nach " ++
        std.latestNapEndTime ++ "). " ++
        "Das kann die Bettzeit deutlich nach hinten verschieben – ggf. früher starten oder kürzen (Nap-Capping)."]
    else []
  let reasoningText :=
    if isClockMode && std.naps == 1 then
      "Im Uhrzeit-Modus wird der Mittagsschlaf bewusst „by the clock“ geplant, um die innere Uhr zu stabilisieren."
    else
      "Orientierungswert für " ++ toString ageMonths ++ " Monate: Wachfenster ca. " ++
        tenthsToString wakeHours ++ " Std."
  ({ type := .nap
     startTime := predictedNapStart
     endTime := some predictedNapEnd
     title := "Vorschlag: Nap " ++ toString napNumber
     description := "Voraussichtliche Dauer: ca. " ++ toString predictedDuration ++ " Min."
     reasoning := reasoningText
     isPrediction := true },
   warns, predictedNapEnd)

/-- The second copy's prediction loop (source lines 1034-1083): after each
slot the wake window becomes `min std.maxWake (specificWakeWindow + 15)`
(line 1082), computed from the loop-invariant base window. -/
def predictNaps (std : SleepStandard) (isClockMode : Bool) (ageMonths : Int)
    (specificWakeWindow : Int) (napsPlanned : Nat) :
    Nat → Nat → String → Int → List PlannedEvent × List String × String
  | 0, _, currentTime, _ => ([], [], currentTime)
  | r + 1, i, currentTime, nextWakeWindow =>
    let slot := napSlot std isClockMode ageMonths napsPlanned (napsPlanned + i + 1)
      currentTime nextWakeWindow
    let rest := predictNaps std isClockMode ageMonths specificWakeWindow napsPlanned r (i + 1)
      slot.2.2 (min std.maxWake (specificWakeWindow + 15))
    (slot.1 :: rest.1, slot.2.1 ++ rest.2.1, rest.2.2)

/-- The second copy's bedtime event (source lines 1104-1129): a
computed bedtime in `(06:00, 18:00)` is clamped to the `"18:00"` anchor
with severity `warning`; after 21:00 it is `critical`. -/
def bedtimeEvent (currentTime : String) (bedtimeWakeWindow : Int) : PlannedEvent :=
  let bedtime0 := addMinutes currentTime bedtimeWakeWindow
  let bedtimeMins := timeToMinutes bedtime0
  let early := bedtimeMins < 1080 ∧ 360 < bedtimeMins
  let late := 1260 < bedtimeMins
  { type := .bedtime
    startTime := if early then "18:00" else bedtime0
    title := "Bettzeit"
    description :=
      if early then "Frühere Bettzeit zur Stabilisierung (Übermüdung vorbeugen)."
      else if late then "Hinweis: Später Schlafbeginn möglich."
      else "Beginn der Nachtruhe."
    reasoning :=
      if early then
        "Die rechnerische Bettzeit wäre sehr früh. 18:00 dient häufig als sinnvoller Anker, wenn der Tag sehr „kurz“ war."
      else if late then
        "Bei sehr spätem Einschlafen steigt das Risiko für „Second Wind“ (Stressaktivierung), was das Abschalten erschweren kann."
      else
        "Berechnung: Ende des letzten Schlafs + " ++
          tenthsToString (round ((bedtimeWakeWindow : ℚ) / 60 * 10)) ++ " Std. Wachzeit."
    isPrediction := true
    alertLevel := some (if early then .warning else if late then .critical else .normal) }

/-- The full derivation of the second copy (the pure computation of its
`scheduleData` memo, source lines 942-1132). -/
def deriveSchedule (ageMonths : Int) (wakeTime : String) (naps : List NapEntry) :
    DerivationResultB :=
  let std := getStandardByMonth ageMonths
  let specificWakeWindow := calculateInterpolatedWakeWindow (ageMonths : ℚ) std
  let wakeEvent : PlannedEvent :=
    { type := .wake
      startTime := wakeTime
      title := "Tagesbeginn"
      description := "Beginn des Wachabschnitts (Schlafdruckaufbau)."
      reasoning := "Tageslicht am Morgen sowie Frühstück und Bewegung unterstützen die Synchronisation der inneren Uhr.\nDas ist besonders hilfreich, wenn es zu sehr frühem Erwachen kommt."
      isPrediction := false }
  let warnings0 : List String :=
    if timeToMinutes wakeTime < 360 then
      ["Sehr frühes Erwachen (< 06:00): Tagesrhythmus kann nach vorn kippen. Erstes Schläfchen tendenziell leicht hinauszögern."]
    else []
  let obsEvents := observedEvents std naps
  let obsWarns := observedWarnings std naps
  let currentTime0 := ((naps.getLast?).map NapEntry.endTime).getD wakeTime
  let napsPlanned := naps.length
  let remainingNaps := std.naps - napsPlanned
  let nextWakeWindow0 :=
    match naps.getLast? with
    | some lastNap =>
      if lastNap.duration < 45 then round ((specificWakeWindow : ℚ) * (0.85 : ℚ))
      else specificWakeWindow
    | none => specificWakeWindow
  let isClockMode := std.mode == Mode.clock
  let predicted := predictNaps std isClockMode ageMonths specificWakeWindow napsPlanned
    remainingNaps 0 currentTime0 nextWakeWindow0
  let currentTime1 := predicted.2.2
  let bedtimeWakeWindow :=
    if std.mode == Mode.window || std.mode == Mode.hybrid then
      round ((std.bedtimeWindow : ℚ) - 15 +
        30 * (((ageMonths : ℚ) - (std.rangeStart : ℚ)) / ((std.rangeEnd : ℚ) - (std.rangeStart : ℚ))))
    else std.bedtimeWindow
  let edgeC : List String :=
    match naps.getLast? with
    | some lastNap =>
      if !(std.idealBedtime == "") &&
          decide (timeToMinutes std.idealBedtime <
            timeToMinutes lastNap.endTime + bedtimeWakeWindow) then
        ["Der letzte Tagschlaf endet im Verhältnis zur Ziel-Bettzeit (" ++ std.idealBedtime ++
          ") eher spät. " ++
          "Das kann die Bettzeit nach hinten verschieben – ggf. Nap früher beenden oder kürzen (Nap-Capping)."]
      else []
    | none => []
  { events := wakeEvent :: (obsEvents ++ predicted.1) ++ [bedtimeEvent currentTime1 bedtimeWakeWindow]
    warnings := warnings0 ++ obsWarns ++ predicted.2.1 ++ edgeC
    standard := std
    specificWakeWindow := specificWakeWindow }

end ImplB

-- --- SHARED LEMMAS ABOUT THE TIME HELPERS ---

/-- The canonical zero-padded `"HH:MM"` rendering of a clock time, the
input shape produced by the app's time widgets and by `minutesToTime`. -/
def fmtHM (h m : Nat) : String :=
  pad2 (toString h) ++ ":" ++ pad2 (toString m)

lemma splitOnChar_of_not_mem {c : Char} : ∀ {l : List Char}, c ∉ l →
    splitOnChar c l = [l] := by
  intro l h
  induction l with
  | nil => rfl
  | cons a t ih =>
    have ha : ¬(a = c) := fun hac => h (hac ▸ List.mem_cons_self a t)
    have ht : c ∉ t := fun hct => h (List.mem_cons_of_mem a hct)
    simp only [splitOnChar, if_neg ha, ih ht]

lemma splitOnChar_append {c : Char} : ∀ {a : List Char} (b : List Char), c ∉ a →
    splitOnChar c (a ++ c :: b) = a :: splitOnChar c b := by
  intro a
  induction a with
  | nil =>
    intro b _
    simp [splitOnChar]
  | cons x t ih =>
    intro b h
    have hx : ¬(x = c) := fun hxc => h (hxc ▸ List.mem_cons_self x t)
    have ht : c ∉ t := fun hct => h (List.mem_cons_of_mem x hct)
    have h2 := ih b ht
    simp only [List.cons_append, splitOnChar, List.append_eq]
    rw [if_neg hx, h2]

lemma colon_not_mem_pad2 : ∀ n : Nat, n < 60 → ':' ∉ (pad2 (toString n)).data := by
  decide

lemma jsNumber_pad2 : ∀ n : Nat, n < 60 → jsNumber (pad2 (toString n)).data = (n : Int) := by
  decide

lemma fmtHM_data (h m : Nat) :
    (fmtHM h m).data = (pad2 (toString h)).data ++ ':' :: (pad2 (toString m)).data := by
  simp only [fmtHM, String.data_append]
  rw [List.append_assoc]
  rfl

lemma fmtHM_ne_empty (h m : Nat) : fmtHM h m ≠ "" := by
  intro he
  have hd := congrArg String.data he
  rw [fmtHM_data] at hd
  simp at hd

/-- Parsing a well-formed zero-padded time string gives the expected
minute count. -/
lemma timeToMinutes_fmtHM (h m : Nat) (hh : h < 24) (hm : m < 60) :
    timeToMinutes (fmtHM h m) = 60 * (h : Int) + (m : Int) := by
  have hh60 : h < 60 := by omega
  rw [timeToMinutes, if_neg (fmtHM_ne_empty h m), fmtHM_data,
    splitOnChar_append _ (colon_not_mem_pad2 h hh60),
    splitOnChar_of_not_mem (colon_not_mem_pad2 m hm)]
  show jsNumber (pad2 (toString h)).data * 60 + jsNumber (pad2 (toString m)).data =
    60 * (h : Int) + (m : Int)
  rw [jsNumber_pad2 h hh60, jsNumber_pad2 m hm]
  ring

lemma toString_intCast_nat (n : Nat) : toString ((n : Int)) = toString n := rfl

/-- Rendering a minute count already in `[0, 1440)` gives the zero-padded
time string with the expected hour and minute digits. -/
lemma minutesToTime_of_lt (n : Nat) (hn : n < 1440) :
    minutesToTime ((n : Int)) = fmtHM (n / 60) (n % 60) := by
  have hfd : Int.fdiv ((n : Int)) 60 = ((n / 60 : Nat) : Int) := (Int.ofNat_fdiv n 60).symm
  have htm : Int.tmod ((n : Int)) 60 = ((n % 60 : Nat) : Int) := rfl
  rw [minutesToTime]
  simp only [hfd, htm]
  rw [if_neg (by omega), if_neg (by omega)]
  rw [toString_intCast_nat, toString_intCast_nat]
  rfl

-- --- CLAIM C3 ---

/-- C3 (counterexample): `minutesToTime` does not normalize every integer
into `[0, 1440)`.  For `-30` (whose normalized rendering would be
`"23:30"` = `fmtHM 23 30`) it renders the negative JS remainder verbatim,
giving `"23:-30"`; and for `2880` only one day is subtracted, giving
`"24:00"`. -/
theorem c3_counterexample :
    minutesToTime (-30) = "23:-30" ∧ minutesToTime 2880 = "24:00" ∧
    fmtHM 23 30 = "23:30" ∧ minutesToTime (-30) ≠ fmtHM 23 30 := by
  refine ⟨rfl, rfl, rfl, ?_⟩
  decide

/-- C3 (amended): for inputs in `[0, 2880)` — i.e. up to one 24-hour
wraparound, which is all the app ever produces — `minutesToTime m` is the
zero-padded `"HH:MM"` rendering of `m` normalized into `[0, 1440)`.
Negative inputs and inputs `≥ 2880` are not normalized. -/
theorem c3_amended (n : Nat) (hn : n < 2880) :
    minutesToTime ((n : Int)) = fmtHM (n % 1440 / 60) (n % 1440 % 60) := by
  rcases Nat.lt_or_ge n 1440 with h1 | h1
  · rw [minutesToTime_of_lt n h1]
    congr 1 <;> omega
  · have hfd : Int.fdiv ((n : Int)) 60 = ((n / 60 : Nat) : Int) := (Int.ofNat_fdiv n 60).symm
    have htm : Int.tmod ((n : Int)) 60 = ((n % 60 : Nat) : Int) := rfl
    rw [minutesToTime]
    simp only [hfd, htm]
    rw [if_neg (by omega), if_pos (by omega)]
    have hh : ((n / 60 : Nat) : Int) - 24 = ((n % 1440 / 60 : Nat) : Int) := by omega
    have hm : ((n % 60 : Nat) : Int) = ((n % 1440 % 60 : Nat) : Int) := by omega
    rw [hh, hm, toString_intCast_nat, toString_intCast_nat]
    rfl

/-- C3 (witness for the amended theorem): at `n = 1500`, which is past one
midnight wraparound, the rendering is the normalized `"01:00"`. -/
theorem c3_amended_witness :
    (1500 : Nat) < 2880 ∧ minutesToTime ((1500 : Nat) : Int) = fmtHM (1500 % 1440 / 60) (1500 % 1440 % 60) :=
  ⟨by decide, c3_amended 1500 (by decide)⟩

-- --- CLAIM C6 ---

/-- C6 (counterexample): the round trip fails for the spec's unpadded
rendering `f"{h}:{m}"`: for `h = 5, m = 3` the input `"5:3"` parses to 303
minutes, but `minutesToTime` always zero-pads, returning `"05:03"`. -/
theorem c6_counterexample :
    minutesToTime (timeToMinutes "5:3") = "05:03" ∧
    minutesToTime (timeToMinutes "5:3") ≠ "5:3" := by
  refine ⟨rfl, ?_⟩
  decide

/-- C6 (amended): the round trip holds for the zero-padded rendering: for
all `h < 24` and `m < 60`,
`minutesToTime (timeToMinutes (fmtHM h m)) = fmtHM h m`. -/
theorem c6_amended (h m : Nat) (hh : h < 24) (hm : m < 60) :
    minutesToTime (timeToMinutes (fmtHM h m)) = fmtHM h m := by
  rw [timeToMinutes_fmtHM h m hh hm]
  have hcast : 60 * (h : Int) + (m : Int) = ((60 * h + m : Nat) : Int) := by push_cast; ring
  rw [hcast, minutesToTime_of_lt (60 * h + m) (by omega)]
  congr 1 <;> omega

/-- C6 (witness for the amended theorem): the round trip at `07:05`. -/
theorem c6_amended_witness :
    (7 : Nat) < 24 ∧ (5 : Nat) < 60 ∧
      minutesToTime (timeToMinutes (fmtHM 7 5)) = fmtHM 7 5 :=
  ⟨by decide, by decide, c6_amended 7 5 (by decide) (by decide)⟩

-- --- CLAIM C8 ---

/-- C8: `addNap` with a blank start or end time is a no-op; with both
non-blank the result contains the new entry and is sorted by start time. -/
theorem c8_addNap :
    (∀ (naps : List NapEntry) (id s e : String), (s = "" ∨ e = "") →
      addNap naps id s e = naps) ∧
    (∀ (naps : List NapEntry) (id s e : String), s ≠ "" → e ≠ "" →
      (∃ nap ∈ addNap naps id s e,
        nap.id = id ∧ nap.startTime = s ∧ nap.endTime = e ∧
        nap.duration = getDuration s e) ∧
      List.Sorted napLE (addNap naps id s e)) := by
  constructor
  · intro naps id s e h
    rcases h with h | h <;> simp [addNap, h]
  · intro naps id s e hs he
    have hcond : addNap naps id s e =
        List.insertionSort napLE
          (naps ++ [{ id := id, startTime := s, endTime := e, duration := getDuration s e }]) := by
      simp [addNap, hs, he]
    rw [hcond]
    refine ⟨⟨{ id := id, startTime := s, endTime := e, duration := getDuration s e }, ?_,
      rfl, rfl, rfl, rfl⟩, ?_⟩
    · exact ((List.perm_insertionSort napLE _).mem_iff).2 (by simp)
    · exact List.sorted_insertionSort napLE _

/-- C8 (witness): a blank-end add is a no-op, and a real add of
`13:00-14:00` to the empty log contains the created entry and is sorted. -/
theorem c8_addNap_witness :
    addNap [] "1" "" "10:00" = [] ∧
    (∃ nap ∈ addNap [] "1" "13:00" "14:00",
      nap.id = "1" ∧ nap.startTime = "13:00" ∧ nap.endTime = "14:00" ∧
      nap.duration = getDuration "13:00" "14:00") ∧
    List.Sorted napLE (addNap [] "1" "13:00" "14:00") :=
  ⟨c8_addNap.1 [] "1" "" "10:00" (Or.inl rfl),
   (c8_addNap.2 [] "1" "13:00" "14:00" (by decide) (by decide)).1,
   (c8_addNap.2 [] "1" "13:00" "14:00" (by decide) (by decide)).2⟩

-- --- CLAIM C9 ---

/-- C9: a nap entry created by `addNap` from well-formed `"HH:MM"` times
has duration in `[0, 1440)`, the duration being end minus start with 1440
added exactly when the raw difference is negative. -/
theorem c9_duration (naps : List NapEntry) (id : String) (h1 m1 h2 m2 : Nat)
    (hh1 : h1 < 24) (hm1 : m1 < 60) (hh2 : h2 < 24) (hm2 : m2 < 60) :
    (⟨id, fmtHM h1 m1, fmtHM h2 m2, getDuration (fmtHM h1 m1) (fmtHM h2 m2)⟩ : NapEntry) ∈
      addNap naps id (fmtHM h1 m1) (fmtHM h2 m2) ∧
    0 ≤ getDuration (fmtHM h1 m1) (fmtHM h2 m2) ∧
    getDuration (fmtHM h1 m1) (fmtHM h2 m2) < 1440 ∧
    getDuration (fmtHM h1 m1) (fmtHM h2 m2) =
      (timeToMinutes (fmtHM h2 m2) - timeToMinutes (fmtHM h1 m1)) +
        (if timeToMinutes (fmtHM h2 m2) - timeToMinutes (fmtHM h1 m1) < 0 then 1440 else 0) := by
  have hs := timeToMinutes_fmtHM h1 m1 hh1 hm1
  have he := timeToMinutes_fmtHM h2 m2 hh2 hm2
  refine ⟨?_, ?_, ?_, ?_⟩
  · have hcond : addNap naps id (fmtHM h1 m1) (fmtHM h2 m2) =
        List.insertionSort napLE
          (naps ++ [⟨id, fmtHM h1 m1, fmtHM h2 m2, getDuration (fmtHM h1 m1) (fmtHM h2 m2)⟩]) := by
      simp [addNap, fmtHM_ne_empty h1 m1, fmtHM_ne_empty h2 m2]
    rw [hcond]
    exact ((List.perm_insertionSort napLE _).mem_iff).2 (by simp)
  · simp only [getDuration]
    rw [hs, he]
    omega
  · simp only [getDuration]
    rw [hs, he]
    omega
  · simp only [getDuration]
    rw [hs, he]
    omega

/-- C9 (witness): the entry created from `22:30` to `00:15` (a
midnight-crossing nap) is in the log and its duration, 105 minutes,
satisfies the invariant. -/
theorem c9_duration_witness :
    (⟨"1", fmtHM 22 30, fmtHM 0 15, getDuration (fmtHM 22 30) (fmtHM 0 15)⟩ : NapEntry) ∈
      addNap [] "1" (fmtHM 22 30) (fmtHM 0 15) ∧
    0 ≤ getDuration (fmtHM 22 30) (fmtHM 0 15) ∧
    getDuration (fmtHM 22 30) (fmtHM 0 15) < 1440 ∧
    getDuration (fmtHM 22 30) (fmtHM 0 15) =
      (timeToMinutes (fmtHM 0 15) - timeToMinutes (fmtHM 22 30)) +
        (if timeToMinutes (fmtHM 0 15) - timeToMinutes (fmtHM 22 30) < 0 then 1440 else 0) :=
  c9_duration [] "1" 22 30 0 15 (by decide) (by decide) (by decide) (by decide)

-- --- CLAIM C7 ---

lemma round_mono_rat {x y : ℚ} (h : x ≤ y) : round x ≤ round y := by
  rw [round_eq, round_eq]
  exact Int.floor_le_floor (by linarith)

/-- C7: within one band (non-degenerate wake-window bounds and age range,
as in every band of the table), the interpolated wake window is monotone
non-decreasing in age, equals `minWake` at the band's lower bound and
`maxWake` at its upper bound; a degenerate band with equal bounds returns
`maxWake` for every age (no division by zero). -/
theorem c7_interpolation (std : SleepStandard)
    (hw : std.minWake ≤ std.maxWake) (hr : std.rangeStart ≤ std.rangeEnd) :
    (∀ a b : ℚ, a ≤ b →
      calculateInterpolatedWakeWindow a std ≤ calculateInterpolatedWakeWindow b std) ∧
    (std.rangeStart < std.rangeEnd →
      calculateInterpolatedWakeWindow ((std.rangeStart : ℚ)) std = std.minWake ∧
      calculateInterpolatedWakeWindow ((std.rangeEnd : ℚ)) std = std.maxWake) ∧
    (std.rangeStart = std.rangeEnd →
      ∀ x : ℚ, calculateInterpolatedWakeWindow x std = std.maxWake) := by
  refine ⟨?_, ?_, ?_⟩
  · intro a b hab
    by_cases heq : std.rangeStart = std.rangeEnd
    · simp [calculateInterpolatedWakeWindow, heq]
    · have hlt : std.rangeStart < std.rangeEnd := lt_of_le_of_ne hr heq
      have hd : (0 : ℚ) < (std.rangeEnd : ℚ) - (std.rangeStart : ℚ) := by
        have h2 : (std.rangeStart : ℚ) < (std.rangeEnd : ℚ) := by exact_mod_cast hlt
        linarith
      have hw2 : (0 : ℚ) ≤ (std.maxWake : ℚ) - (std.minWake : ℚ) := by
        have h3 : (std.minWake : ℚ) ≤ (std.maxWake : ℚ) := by exact_mod_cast hw
        linarith
      simp only [calculateInterpolatedWakeWindow, if_neg heq]
      apply round_mono_rat
      have hfrac :
          (a - (std.rangeStart : ℚ)) / ((std.rangeEnd : ℚ) - (std.rangeStart : ℚ)) ≤
            (b - (std.rangeStart : ℚ)) / ((std.rangeEnd : ℚ) - (std.rangeStart : ℚ)) :=
        (div_le_div_iff_of_pos_right hd).mpr (by linarith)
      have hmul := mul_le_mul_of_nonneg_left hfrac hw2
      linarith
  · intro hlt
    have heq : ¬(std.rangeStart = std.rangeEnd) := ne_of_lt hlt
    have hd : ((std.rangeEnd : ℚ) - (std.rangeStart : ℚ)) ≠ 0 := by
      have h2 : (std.rangeStart : ℚ) < (std.rangeEnd : ℚ) := by exact_mod_cast hlt
      intro h0
      linarith
    constructor
    · simp only [calculateInterpolatedWakeWindow, if_neg heq]
      rw [sub_self, zero_div, mul_zero, add_zero, round_intCast]
    · simp only [calculateInterpolatedWakeWindow, if_neg heq]
      rw [div_self hd]
      have h4 : (std.minWake : ℚ) + ((std.maxWake : ℚ) - (std.minWake : ℚ)) * 1 =
          ((std.maxWake : Int) : ℚ) := by ring
      rw [h4, round_intCast]
  · intro heq x
    simp [calculateInterpolatedWakeWindow, heq]

/-- C7 (witness): instantiated at the first copy's 19-36-month band, with
monotonicity applied at ages 20 and 30. -/
theorem c7_interpolation_witness :
    (ImplA.SLEEP_STANDARDS .k19_36).minWake ≤ (ImplA.SLEEP_STANDARDS .k19_36).maxWake ∧
    (ImplA.SLEEP_STANDARDS .k19_36).rangeStart ≤ (ImplA.SLEEP_STANDARDS .k19_36).rangeEnd ∧
    calculateInterpolatedWakeWindow 20 (ImplA.SLEEP_STANDARDS .k19_36) ≤
      calculateInterpolatedWakeWindow 30 (ImplA.SLEEP_STANDARDS .k19_36) :=
  ⟨by decide, by decide,
   (c7_interpolation (ImplA.SLEEP_STANDARDS .k19_36) (by decide) (by decide)).1 20 30
     (by norm_num)⟩

-- --- CLAIM C1 ---

/-- C1 (counterexample): at age 24 months, wake `"05:00"`, no observed
naps, the bedtime event lands at `"18:15"` (12:15 + 360 minutes), not at
the claimed `"17:15"`. -/
theorem c1_counterexample :
    ∃ e, (ImplA.deriveSchedule 24 "05:00" []).events.get? 2 = some e ∧
      e.type = EventType.bedtime ∧ e.startTime = "18:15" ∧ e.startTime ≠ "17:15" := by
  refine ⟨_, rfl, rfl, rfl, ?_⟩
  decide

/-- C1 (amended): scenario age 24 months, wake `"05:00"`, empty nap list:
a wake event at 05:00; one predicted nap by the capped strategy starting
11:00 (= 05:00 + the band's 360-minute maximum wake window), ending 12:15
(75-minute duration), severity `warning`, title and first warning
mentioning capping; and a bedtime event whose wake window is forced to the
band's maximum of 360 minutes, landing at `"18:15"` (12:15 + 360 min) with
severity `warning`. -/
theorem c1_amended :
    (ImplA.getStandardByMonth 24).maxWake = 360 ∧
    (ImplA.deriveSchedule 24 "05:00" []).events.length = 3 ∧
    ((ImplA.deriveSchedule 24 "05:00" []).events.get? 0).map
      (fun e => (e.type, e.startTime, e.isPrediction)) =
      some (EventType.wake, "05:00", false) ∧
    (∃ e, (ImplA.deriveSchedule 24 "05:00" []).events.get? 1 = some e ∧
      e.type = EventType.nap ∧ e.isPrediction = true ∧
      e.startTime = addMinutes "05:00" (ImplA.getStandardByMonth 24).maxWake ∧
      e.startTime = "11:00" ∧
      e.endTime = some (addMinutes "11:00" 75) ∧ e.endTime = some "12:15" ∧
      e.alertLevel = some Alert.warning ∧ jsIncludes e.title "Capping" = true) ∧
    (∃ w, (ImplA.deriveSchedule 24 "05:00" []).warnings.get? 0 = some w ∧
      jsIncludes w "Capping" = true) ∧
    (∃ e, (ImplA.deriveSchedule 24 "05:00" []).events.get? 2 = some e ∧
      e.type = EventType.bedtime ∧ e.isPrediction = true ∧
      e.startTime = addMinutes "12:15" 360 ∧ e.startTime = "18:15" ∧
      e.alertLevel = some Alert.warning) := by
  refine ⟨rfl, rfl, rfl, ⟨_, rfl, rfl, rfl, rfl, rfl, rfl, rfl, rfl, rfl⟩,
    ⟨_, rfl, rfl⟩, ⟨_, rfl, rfl, rfl, rfl, rfl, rfl⟩⟩

-- --- CLAIM C5 ---

/-- C5: the two derivation implementations disagree: on (24 months,
`"05:00"`, no naps) the first copy places the nap at 11:00 (capped
strategy) while the second places it at 12:30 (pure clock anchor), so the
event lists differ; the policy constants also differ (too-long threshold
120 vs 150 minutes, bedtime window 360 vs 330 for the 19-36 band). -/
theorem c5_implementations_differ :
    ((ImplA.deriveSchedule 24 "05:00" []).events.get? 1).map (fun e => e.startTime) =
      some "11:00" ∧
    ((ImplB.deriveSchedule 24 "05:00" []).events.get? 1).map (fun e => e.startTime) =
      some "12:30" ∧
    (ImplA.deriveSchedule 24 "05:00" []).events.map (fun e => e.startTime) ≠
      (ImplB.deriveSchedule 24 "05:00" []).events.map (fun e => e.startTime) ∧
    (ImplA.SLEEP_STANDARDS .k19_36).tooLongNapMinutes = 120 ∧
    (ImplB.SLEEP_STANDARDS .k19_36).tooLongNapMinutes = 150 ∧
    (ImplA.SLEEP_STANDARDS .k19_36).bedtimeWindow = 360 ∧
    (ImplB.SLEEP_STANDARDS .k19_36).bedtimeWindow = 330 := by
  refine ⟨rfl, rfl, ?_, rfl, rfl, rfl, rfl⟩
  decide

-- --- CLAIM C4 ---

lemma bedtimeEventA_shape (ct : String) (w : Int) (cap : Bool) :
    (ImplA.bedtimeEvent ct w cap).type = EventType.bedtime ∧
    (ImplA.bedtimeEvent ct w cap).isPrediction = true ∧
    (ImplA.bedtimeEvent ct w cap).startTime = addMinutes ct (if cap then (360 : Int) else w) ∧
    (ImplA.bedtimeEvent ct w cap).alertLevel = some
      (if cap then Alert.warning
       else if timeToMinutes (addMinutes ct w) < 1080 then Alert.warning
       else if 1260 < timeToMinutes (addMinutes ct w) then Alert.critical
       else Alert.normal) := by
  cases cap <;> exact ⟨rfl, rfl, rfl, rfl⟩

lemma deriveScheduleA_last_bedtime (age : Int) (wake : String) (naps : List NapEntry) :
    ∃ ct w cap, (ImplA.deriveSchedule age wake naps).events.getLast? =
      some (ImplA.bedtimeEvent ct w cap) := by
  simp only [ImplA.deriveSchedule]
  exact ⟨_, _, _, List.getLast?_concat _⟩

/-- C4 (amended): the last event of every derivation is the bedtime event;
its start time is the cursor plus the wake window in effect (360 when the
capped strategy fired).  It is classified by the computed instant —
`warning` before 18:00, `critical` after 21:00, `normal` otherwise —
except that the capped-strategy override forces severity `warning`
regardless of the instant. -/
theorem c4_amended (age : Int) (wake : String) (naps : List NapEntry) :
    ∃ ct w cap,
      (ImplA.deriveSchedule age wake naps).events.getLast? =
        some (ImplA.bedtimeEvent ct w cap) ∧
      (ImplA.bedtimeEvent ct w cap).type = EventType.bedtime ∧
      (ImplA.bedtimeEvent ct w cap).startTime = addMinutes ct (if cap then (360 : Int) else w) ∧
      (ImplA.bedtimeEvent ct w cap).alertLevel = some
        (if cap then Alert.warning
         else if timeToMinutes (addMinutes ct w) < 1080 then Alert.warning
         else if 1260 < timeToMinutes (addMinutes ct w) then Alert.critical
         else Alert.normal) := by
  obtain ⟨ct, w, cap, h⟩ := deriveScheduleA_last_bedtime age wake naps
  exact ⟨ct, w, cap, h, (bedtimeEventA_shape ct w cap).1,
    (bedtimeEventA_shape ct w cap).2.2.1, (bedtimeEventA_shape ct w cap).2.2.2⟩

/-- C4 (counterexample): at (24, `"05:00"`, no naps) the bedtime falls at
18:15 — inside the `normal` band of the claimed instant-only
classification — yet its severity is `warning`, because the capped-nap
override, not the instant, decides it. -/
theorem c4_counterexample :
    ∃ e, (ImplA.deriveSchedule 24 "05:00" []).events.getLast? = some e ∧
      e.type = EventType.bedtime ∧ e.startTime = "18:15" ∧
      ¬(timeToMinutes e.startTime < 1080) ∧ ¬(1260 < timeToMinutes e.startTime) ∧
      e.alertLevel = some Alert.warning ∧ e.alertLevel ≠ some Alert.normal := by
  refine ⟨_, rfl, rfl, rfl, ?_, ?_, rfl, ?_⟩ <;> decide

-- --- CLAIM C2 ---

lemma buildNapEventA_late (std : SleepStandard) (info : ImplA.SlotInfo) (e : String)
    (he : (ImplA.buildNapEvent std info).1.endTime = some e)
    (hne : std.latestNapEndTime ≠ "")
    (hl : isLater e std.latestNapEndTime = true) :
    (ImplA.buildNapEvent std info).1.alertLevel = some Alert.warning ∧
    ∃ pre, (ImplA.buildNapEvent std info).1.reasoning =
      pre ++ (" ACHTUNG: Nap endet sehr spät (" ++ e ++ "). Gefahr für Bettzeit!") := by
  have hee : addMinutes info.start info.dur = e := Option.some.inj he
  have hbeq : (std.latestNapEndTime == "") = false := by
    simp [hne]
  have hc : (!(std.latestNapEndTime == "") &&
      isLater (addMinutes info.start info.dur) std.latestNapEndTime) = true := by
    rw [hbeq, hee, hl]
    rfl
  constructor
  · show (ImplA.buildNapEvent std info).1.alertLevel = some Alert.warning
    simp only [ImplA.buildNapEvent, hc]
    rfl
  · refine ⟨info.reason, ?_⟩
    show (ImplA.buildNapEvent std info).1.reasoning = _
    simp only [ImplA.buildNapEvent, hc, if_true]
    rw [hee]
    simp [String.append_assoc]

lemma predictNapsA_mem (std : SleepStandard) (isT : Bool) (np : Nat) :
    ∀ (r i : Nat) (ct : String) (ww : Int),
      ∀ ev ∈ (ImplA.predictNaps std isT np r i ct ww).1,
        ∃ info, ev = (ImplA.buildNapEvent std info).1 := by
  intro r
  induction r with
  | zero =>
    intro i ct ww ev hev
    simp [ImplA.predictNaps] at hev
  | succ n ih =>
    intro i ct ww ev hev
    simp only [ImplA.predictNaps] at hev
    rcases List.mem_cons.1 hev with h | h
    · exact ⟨_, h⟩
    · exact ih _ _ _ ev h

lemma observedEventsA_not_pred (std : SleepStandard) (naps : List NapEntry) :
    ∀ ev ∈ ImplA.observedEvents std naps, ev.isPrediction = false := by
  intro ev hev
  simp only [ImplA.observedEvents, List.mem_map] at hev
  obtain ⟨p, _, rfl⟩ := hev
  rfl

/-- C2 (amended): in the first copy, whenever a predicted nap's computed
end is later than the band's `latestNapEndTime`, that nap event's severity
is elevated to `warning` and a text naming the bedtime risk is appended to
the event's own reasoning — not to the result's warnings list. -/
theorem c2_amended (age : Int) (wake : String) (naps : List NapEntry) :
    ∀ ev ∈ (ImplA.deriveSchedule age wake naps).events,
      ev.type = EventType.nap → ev.isPrediction = true →
      ∀ e, ev.endTime = some e →
      (ImplA.getStandardByMonth age).latestNapEndTime ≠ "" →
      isLater e (ImplA.getStandardByMonth age).latestNapEndTime = true →
      ev.alertLevel = some Alert.warning ∧
      ∃ pre, ev.reasoning =
        pre ++ (" ACHTUNG: Nap endet sehr spät (" ++ e ++ "). Gefahr für Bettzeit!") := by
  intro ev hev hty hpred e hend hne hl
  simp only [ImplA.deriveSchedule, List.mem_append, List.mem_cons, List.mem_singleton] at hev
  rcases hev with (rfl | hobs | hpredmem) | rfl | hnil
  · simp at hty
  · have h0 := observedEventsA_not_pred _ _ ev hobs
    rw [hpred] at h0
    simp at h0
  · obtain ⟨info, rfl⟩ := predictNapsA_mem _ _ _ _ _ _ _ ev hpredmem
    exact buildNapEventA_late _ info e hend hne hl
  · simp [ImplA.bedtimeEvent] at hty
  · simp at hnil

/-- C2 (witness for the amended theorem): at (24 months, `"10:00"`, no
naps) the predicted nap ends 16:30, after the band's 15:00 limit, and
indeed carries severity `warning` with the risk note in its reasoning. -/
theorem c2_amended_witness :
    ∃ ev ∈ (ImplA.deriveSchedule 24 "10:00" []).events,
      ev.alertLevel = some Alert.warning ∧
      ∃ pre, ev.reasoning =
        pre ++ (" ACHTUNG: Nap endet sehr spät (" ++ "16:30" ++ "). Gefahr für Bettzeit!") := by
  have hmem : (⟨EventType.nap, "15:00", some "16:30", "Vorschlag: Nap 1",
      "Zielzeit ca. 15:00. Dauer: 90 Min.",
      "Standard-Mittagsschlafzeit passend zum Wachfenster. ACHTUNG: Nap endet sehr spät (16:30). Gefahr für Bettzeit!",
      true, some Alert.warning⟩ : PlannedEvent) ∈ (ImplA.deriveSchedule 24 "10:00" []).events := by
    decide
  exact ⟨_, hmem, c2_amended 24 "10:00" [] _ hmem rfl rfl "16:30" rfl (by decide) (by decide)⟩

/-- C2 (counterexample): at (24 months, `"10:00"`, no naps) the predicted
nap ends 16:30, later than the band's `latestNapEndTime` of 15:00, yet the
result's warnings list is empty — the first copy never appends the
bedtime-risk warning to the warnings list. -/
theorem c2_counterexample :
    ((ImplA.deriveSchedule 24 "10:00" []).events.get? 1).map
        (fun e => (e.type, e.isPrediction, e.endTime)) =
      some (EventType.nap, true, some "16:30") ∧
    isLater "16:30" (ImplA.deriveSchedule 24 "10:00" []).standard.latestNapEndTime = true ∧
    (ImplA.deriveSchedule 24 "10:00" []).warnings = [] :=
  ⟨rfl, rfl, rfl⟩

-- --- CLAIM C10 ---

lemma getStandardByMonthA_final (age : Int) (h : 36 < age) :
    ImplA.getStandardByMonth age = ImplA.SLEEP_STANDARDS .k36plus := by
  unfold ImplA.getStandardByMonth
  rw [if_neg (by omega), if_neg (by omega), if_neg (by omega), if_neg (by omega),
    if_neg (by omega)]

lemma getStandardByMonthB_final (age : Int) (h : 36 < age) :
    ImplB.getStandardByMonth age = ImplB.SLEEP_STANDARDS .k36plus := by
  unfold ImplB.getStandardByMonth
  rw [if_neg (by omega), if_neg (by omega), if_neg (by omega), if_neg (by omega),
    if_neg (by omega)]

lemma bedtimeEventB_type (ct : String) (w : Int) :
    (ImplB.bedtimeEvent ct w).type = EventType.bedtime := rfl

/-- C10: for every age resolving to the final band (37 months and up,
whose nap target is 0) and an empty observed-nap list, both derivation
copies return exactly the wake event followed by the bedtime event and
predict no naps. -/
theorem c10_final_band_no_naps (age : Int) (h : 37 ≤ age) (wake : String) :
    (ImplA.getStandardByMonth age).naps = 0 ∧
    (ImplA.deriveSchedule age wake []).events.map PlannedEvent.type =
      [EventType.wake, EventType.bedtime] ∧
    (ImplB.getStandardByMonth age).naps = 0 ∧
    (ImplB.deriveSchedule age wake []).events.map PlannedEvent.type =
      [EventType.wake, EventType.bedtime] := by
  have hA := getStandardByMonthA_final age (by omega)
  have hB := getStandardByMonthB_final age (by omega)
  refine ⟨by rw [hA]; rfl, ?_, by rw [hB]; rfl, ?_⟩
  · simp [ImplA.deriveSchedule, hA, ImplA.SLEEP_STANDARDS, ImplA.observedEvents,
      ImplA.predictNaps, ImplA.bedtimeEvent]
  · simp [ImplB.deriveSchedule, hB, ImplB.SLEEP_STANDARDS, ImplB.observedEvents,
      ImplB.observedWarnings, ImplB.predictNaps, ImplB.bedtimeEvent]

/-- C10 (witness): at age 40 months with wake `"07:00"` both copies return
the two-event schedule. -/
theorem c10_final_band_no_naps_witness :
    (ImplA.getStandardByMonth 40).naps = 0 ∧
    (ImplA.deriveSchedule 40 "07:00" []).events.map PlannedEvent.type =
      [EventType.wake, EventType.bedtime] ∧
    (ImplB.getStandardByMonth 40).naps = 0 ∧
    (ImplB.deriveSchedule 40 "07:00" []).events.map PlannedEvent.type =
      [EventType.wake, EventType.bedtime] :=
  c10_final_band_no_naps 40 (by norm_num) "07:00"
